import Mathlib

/- Shallow embedding of the mask engine of cell_segmentation_tool.py and of
the batch converter convert_masks_to_cellpose.py.  A raster is a list of rows
of natural-number instance IDs (the numpy int arrays of the source, whose
stored values are 0 for background or a positive instance ID).  The cv2
primitives (fillPoly, findContours/drawContours, cvtColor) and the host
filesystem/pathlib are external collaborators of the repository: they are
modelled by explicitly quantified parameters (fill, tracer, hsv, ex); every
other definition is translated from the source. -/

namespace CellSeg

/-- Raster of per-pixel instance IDs; models self.masks. -/
abbrev Raster := List (List Nat)

/-- Value of pixel at row y, column x, 0 outside; models masks[y, x]. -/
def rasterGet (r : Raster) (y x : Nat) : Nat := (r.getD y []).getD x 0

/-- All pixel values of a raster in row-major order. -/
def rasterVals (r : Raster) : List Nat := r.foldr (fun row acc => row ++ acc) []

/-- Maximum pixel value; models masks.max() (0 for an empty raster). -/
def maxVal (r : Raster) : Nat := (rasterVals r).foldr Nat.max 0

/-- Distinct pixel values; models the value set of np.unique(masks). -/
def distinctVals (r : Raster) : List Nat := (rasterVals r).dedup

/-- Models num_masks = len(np.unique(masks)) - 1 of save_masks and convert_file
(the source's way of counting instances, which assumes 0 is present). -/
def numMasks (r : Raster) : Nat := (distinctVals r).length - 1

/-- Number of distinct nonzero IDs; this one follows the spec's words, namely
the count of distinct nonzero instance IDs, for comparison with numMasks. -/
def specNonzeroIdCount (r : Raster) : Nat :=
  ((distinctVals r).filter (fun v => v != 0)).length

/-- Shape test of the source: loaded_masks.shape[:2] == self.masks.shape,
where the target shape is (H, W). -/
def hasShape (r : Raster) (H W : Nat) : Bool :=
  r.length == H && r.all (fun row => row.length == W)

/-- Insert into an ascending list (helper of sortAsc). -/
def insertAsc (v : Nat) : List Nat → List Nat
  | [] => [v]
  | w :: ws => if v ≤ w then v :: w :: ws else w :: insertAsc v ws

/-- Ascending sort; models the ascending order of np.unique. -/
def sortAsc : List Nat → List Nat
  | [] => []
  | v :: vs => insertAsc v (sortAsc vs)

/-- Truncation to unsigned 16 bit; models masks.astype(np.uint16). -/
def toUint16 (r : Raster) : Raster := r.map (fun row => row.map (fun v => v % 65536))

/-- Models _generate_outlines / generate_outlines: its pixel content is the
product of cv2.findContours and cv2.drawContours, which are external, so the
whole per-instance tracing pass is modelled by the parameter tracer. -/
def generateOutlines (tracer : Raster → Raster) (r : Raster) : Raster := tracer r

/-- Models _generate_colors / generate_colors: for the ascending nonzero IDs,
hue = (id * 137) % 180 is mapped through cv2.cvtColor HSV to RGB (external,
parameter hsv); an all-background raster yields the single entry (0, 0, 0). -/
def generateColors (hsv : Nat → Nat × Nat × Nat) (r : Raster) : List (Nat × Nat × Nat) :=
  let ids := sortAsc ((distinctVals r).filter (fun v => v != 0))
  if ids = [] then [(0, 0, 0)] else ids.map (fun id => hsv ((id * 137) % 180))

/-- Dictionary container as stored in a _seg.npy file: the key masks is always
present, outlines and colors are present exactly when the corresponding keys
are (partial shapes lack them); filename is the provenance field. -/
structure CellposeDict where
  masks : Raster
  outlines : Option Raster
  colors : Option (List (Nat × Nat × Nat))
  filename : String
deriving DecidableEq

/-- Content of a _seg.npy file: a bare 2-d array, a 0-d object array holding a
dictionary with a masks key, or anything else (unknown / corrupt). -/
inductive NpyData where
  | simple (a : Raster)
  | cdict (d : CellposeDict)
  | other
deriving DecidableEq

/-- Filesystem fragment: association list from path to npy content. -/
abbrev Disk := List (String × NpyData)

/-- Lookup of a path on the disk. -/
def lookupFile (d : Disk) (p : String) : Option NpyData :=
  match d with
  | [] => none
  | (q, v) :: rest => if q = p then some v else lookupFile rest p

/-- Models os.remove (plus the surrounding existence check: removing an absent
path leaves the disk as it is). -/
def removeFile (d : Disk) (p : String) : Disk := d.filter (fun e => e.1 != p)

/-- Models np.save: overwrite or create the file at the path. -/
def setFile (d : Disk) (p : String) (v : NpyData) : Disk := (p, v) :: removeFile d p

/-- Models _get_mask_path: Path(image_path).stem + "_seg.npy" in the same
directory (pathlib is external; the model appends the suffix to the stem). -/
def maskPathOf (stem : String) : String := stem ++ "_seg.npy"

/-- Models save_masks: when len(np.unique(masks)) - 1 > 0 write the complete
CellPose dictionary (outlines, colors, masks as uint16, filename and the fixed
metadata) to the mask path, otherwise delete the mask file if it exists. -/
def saveMasks (tracer : Raster → Raster) (hsv : Nat → Nat × Nat × Nat)
    (mp ip : String) (masks : Raster) (disk : Disk) : Disk :=
  if 0 < numMasks masks then
    setFile disk mp (NpyData.cdict
      { masks := toUint16 masks
        outlines := some (generateOutlines tracer masks)
        colors := some (generateColors hsv masks)
        filename := ip })
  else removeFile disk mp

/-- Models the mask-loading part of load_image: start from an all-zero raster
of the image shape; if a mask file exists, extract the array (the masks entry
of a dictionary container, or the bare array), adopt it when its shape matches
the image, and only when its maximum is positive set next_mask_id to max + 1;
in every other case (no file, unknown content, shape mismatch) keep the
all-zero raster and leave next_mask_id untouched. -/
def loadMasks (H W prevNext : Nat) (entry : Option NpyData) : Raster × Nat :=
  let base : Raster := List.replicate H (List.replicate W 0)
  match entry with
  | none => (base, prevNext)
  | some NpyData.other => (base, prevNext)
  | some (NpyData.simple a) =>
      if hasShape a H W then
        (a, if 0 < maxVal a then maxVal a + 1 else prevNext)
      else (base, prevNext)
  | some (NpyData.cdict d) =>
      if hasShape d.masks H W then
        (d.masks, if 0 < maxVal d.masks then maxVal d.masks + 1 else prevNext)
      else (base, prevNext)

/-- Initial value of next_mask_id set in ImageCanvas's constructor. -/
def initNextMaskId : Nat := 1

/-- In-memory canvas/window state the mask engine mutates. -/
structure AppState where
  masks : Raster
  next_mask_id : Nat
  undo_stack : List Raster
deriving DecidableEq

/-- Models max_undo_steps. -/
def maxUndoSteps : Nat := 50

/-- Models add_to_undo_stack: append a copy of the given raster and drop the
oldest entry when the depth cap is exceeded. -/
def addToUndoStack (stack : List Raster) (m : Raster) : List Raster :=
  if maxUndoSteps < (stack ++ [m]).length then (stack ++ [m]).drop 1 else stack ++ [m]

/-- One row of the paint update: new_mask row is the fill row with pixels of
existing instances zeroed, and surviving pixels receive the new ID. -/
def paintRow (id : Nat) : List Bool → List Nat → List Nat
  | _, [] => []
  | [], row => row
  | b :: bs, v :: vs => (if b && v == 0 then id else v) :: paintRow id bs vs

/-- Pixel update of _create_mask_from_polygon: masks[new_mask == 1] = id where
new_mask is the polygon fill with existing-instance pixels removed. -/
def paintMasks (id : Nat) : List (List Bool) → Raster → Raster
  | _, [] => []
  | [], m => m
  | f :: fs, row :: rows => paintRow id f row :: paintMasks id fs rows

/-- Surviving-pixel count of one row (helper of survivors). -/
def survivorsRow : List Bool → List Nat → Nat
  | _, [] => 0
  | [], _ => 0
  | b :: bs, v :: vs => (if b && v == 0 then 1 else 0) + survivorsRow bs vs

/-- Models np.sum(new_mask) after overlap subtraction: the number of pixels of
the fill that land on background. -/
def survivors : List (List Bool) → Raster → Nat
  | _, [] => 0
  | [], _ => 0
  | f :: fs, row :: rows => survivorsRow f row + survivors fs rows

/-- Models _create_mask_from_polygon: fill is the binary grid produced by
cv2.fillPoly from the polygon (external, hence a parameter).  Polygons with
fewer than 3 points are rejected; if no pixel survives the subtraction of
existing instances nothing changes; otherwise the surviving pixels get
next_mask_id, the counter is incremented, and only then is the (already
mutated) raster appended to the undo stack, exactly as in the source. -/
def createMaskFromPolygon (pts : List (Int × Int)) (fill : List (List Bool))
    (s : AppState) : AppState :=
  if pts.length < 3 then s
  else if 0 < survivors fill s.masks then
    { masks := paintMasks s.next_mask_id fill s.masks
      next_mask_id := s.next_mask_id + 1
      undo_stack := addToUndoStack s.undo_stack (paintMasks s.next_mask_id fill s.masks) }
  else s

/-- Models the polygon-commit branch of mouseReleaseEvent: for a polygon of at
least 3 points, run _create_mask_from_polygon and then save_masks
unconditionally; the Bool records whether save_masks was invoked. -/
def finalizePolygon (tracer : Raster → Raster) (hsv : Nat → Nat × Nat × Nat)
    (mp ip : String) (pts : List (Int × Int)) (fill : List (List Bool))
    (s : AppState) (disk : Disk) : AppState × Disk × Bool :=
  if 3 ≤ pts.length then
    (createMaskFromPolygon pts fill s,
     saveMasks tracer hsv mp ip (createMaskFromPolygon pts fill s).masks disk,
     true)
  else (s, disk, false)

/-- Zero every pixel carrying the given ID; models masks[masks == mask_id] = 0. -/
def eraseId (id : Nat) (r : Raster) : Raster :=
  r.map (fun row => row.map (fun v => if v = id then 0 else v))

/-- Models _delete_mask_at: inside the bounds check read the ID at (x, y); a
positive ID first pushes the current raster onto the undo stack, then zeroes
its pixels and saves; background or out-of-bounds coordinates change nothing.
The Option records the branch taken (the deleted ID, per the source's
messages). -/
def deleteMaskAt (tracer : Raster → Raster) (hsv : Nat → Nat × Nat × Nat)
    (mp ip : String) (x y : Int) (s : AppState) (disk : Disk) :
    AppState × Disk × Option Nat :=
  if 0 ≤ x ∧ x < ((s.masks.headD []).length : Int) ∧ 0 ≤ y ∧ y < (s.masks.length : Int) then
    if 0 < rasterGet s.masks y.toNat x.toNat then
      ({ masks := eraseId (rasterGet s.masks y.toNat x.toNat) s.masks
         next_mask_id := s.next_mask_id
         undo_stack := addToUndoStack s.undo_stack s.masks },
       saveMasks tracer hsv mp ip (eraseId (rasterGet s.masks y.toNat x.toNat) s.masks) disk,
       some (rasterGet s.masks y.toNat x.toNat))
    else (s, disk, none)
  else (s, disk, none)

/-- Models MainWindow.undo: when the undo stack is nonempty, pop its most
recent raster into the canvas and save; an empty stack changes nothing. -/
def undoOp (tracer : Raster → Raster) (hsv : Nat → Nat × Nat × Nat)
    (mp ip : String) (s : AppState) (disk : Disk) : AppState × Disk :=
  match s.undo_stack.getLast? with
  | none => (s, disk)
  | some m =>
      ({ masks := m, next_mask_id := s.next_mask_id, undo_stack := s.undo_stack.dropLast },
       saveMasks tracer hsv mp ip m disk)

/-- Session state for the image-switching paths: the loaded canvas (an image
is already open, so masks and image_path are present) plus the window's undo
stack and the disk. -/
structure Session where
  masks : Raster
  next_mask_id : Nat
  undo_stack : List Raster
  imagePath : String
  disk : Disk
deriving DecidableEq

/-- Models dropEvent for a dropped file whose lowercased name ends in .tif or
.tiff (isTif): save the current masks, then load_image the new file; the undo
stack is left exactly as it was (the source has no clearing step here). -/
def dropEvent (tracer : Raster → Raster) (hsv : Nat → Nat × Nat × Nat)
    (sess : Session) (newPath : String) (newH newW : Nat) (isTif : Bool) : Session :=
  if isTif then
    { masks := (loadMasks newH newW sess.next_mask_id
        (lookupFile (saveMasks tracer hsv (maskPathOf sess.imagePath) sess.imagePath
          sess.masks sess.disk) (maskPathOf newPath))).1
      next_mask_id := (loadMasks newH newW sess.next_mask_id
        (lookupFile (saveMasks tracer hsv (maskPathOf sess.imagePath) sess.imagePath
          sess.masks sess.disk) (maskPathOf newPath))).2
      undo_stack := sess.undo_stack
      imagePath := newPath
      disk := saveMasks tracer hsv (maskPathOf sess.imagePath) sess.imagePath
        sess.masks sess.disk }
  else sess

/-- Models open_image_dialog for a chosen file that decodes successfully: save
the current masks, load_image the new file, then clear the undo stack. -/
def openImageDialog (tracer : Raster → Raster) (hsv : Nat → Nat × Nat × Nat)
    (sess : Session) (newPath : String) (newH newW : Nat) : Session :=
  { masks := (loadMasks newH newW sess.next_mask_id
      (lookupFile (saveMasks tracer hsv (maskPathOf sess.imagePath) sess.imagePath
        sess.masks sess.disk) (maskPathOf newPath))).1
    next_mask_id := (loadMasks newH newW sess.next_mask_id
      (lookupFile (saveMasks tracer hsv (maskPathOf sess.imagePath) sess.imagePath
        sess.masks sess.disk) (maskPathOf newPath))).2
    undo_stack := []
    imagePath := newPath
    disk := saveMasks tracer hsv (maskPathOf sess.imagePath) sess.imagePath
      sess.masks sess.disk }

/-- Outcome classification of convert_file (the error branch of the source
wraps host exceptions, which the total model has no source of). -/
inductive ConvStatus where
  | already_cellpose
  | converted (n : Nat)
  | no_tif
  | unknown_format
deriving DecidableEq

/-- Models is_cellpose_format: a 0-d dictionary container having all of the
keys masks, outlines and colors. -/
def is_cellpose_format : NpyData → Bool
  | NpyData.cdict d => d.outlines.isSome && d.colors.isSome
  | _ => false

/-- Models get_corresponding_tif: try the four case-variant TIFF extensions on
the stem (with _seg removed) in order and return the first existing sibling;
ex is the external filesystem existence test. -/
def get_corresponding_tif (ex : String → Bool) (base : String) : Option String :=
  if ex (base ++ ".tif") then some (base ++ ".tif")
  else if ex (base ++ ".tiff") then some (base ++ ".tiff")
  else if ex (base ++ ".TIF") then some (base ++ ".TIF")
  else if ex (base ++ ".TIFF") then some (base ++ ".TIFF")
  else none

/-- Models convert_to_cellpose_format: the complete dictionary built from the
mask array (as uint16), freshly generated outlines and colors, and the sibling
image path as filename. -/
def convert_to_cellpose_format (tracer : Raster → Raster) (hsv : Nat → Nat × Nat × Nat)
    (masks : Raster) (tifPath : String) : NpyData :=
  NpyData.cdict
    { masks := toUint16 masks
      outlines := some (generateOutlines tracer masks)
      colors := some (generateColors hsv masks)
      filename := tifPath }

/-- Models convert_file on decoded file content: complete containers are
reported as already_cellpose; a dictionary or bare-array container first looks
for a sibling image (no_tif when absent, before any write); otherwise the
count len(np.unique) - 1 is reported and, unless dry_run, the complete shape
is written (middle component) and a backup copy made when requested (last
component); any other content is unknown_format. -/
def convert_file (tracer : Raster → Raster) (hsv : Nat → Nat × Nat × Nat)
    (ex : String → Bool) (base : String) (data : NpyData)
    (dry_run backup : Bool) : ConvStatus × Option NpyData × Bool :=
  if is_cellpose_format data then (ConvStatus.already_cellpose, none, false)
  else
    match data with
    | NpyData.cdict d =>
        match get_corresponding_tif ex base with
        | none => (ConvStatus.no_tif, none, false)
        | some tp =>
            (ConvStatus.converted (numMasks d.masks),
             if !dry_run then some (convert_to_cellpose_format tracer hsv d.masks tp) else none,
             !dry_run && backup)
    | NpyData.simple a =>
        match get_corresponding_tif ex base with
        | none => (ConvStatus.no_tif, none, false)
        | some tp =>
            (ConvStatus.converted (numMasks a),
             if !dry_run then some (convert_to_cellpose_format tracer hsv a tp) else none,
             !dry_run && backup)
    | NpyData.other => (ConvStatus.unknown_format, none, false)

/-- A nonzero pixel is never repainted (row version). -/
lemma paintRow_keep (id : Nat) (f : List Bool) (row : List Nat) (x : Nat)
    (h : row.getD x 0 ≠ 0) : (paintRow id f row).getD x 0 = row.getD x 0 := by
  induction row generalizing f x with
  | nil => simp [List.getD] at h
  | cons v vs ih =>
      cases f with
      | nil => rfl
      | cons b bs =>
          cases x with
          | zero =>
              simp only [List.getD_cons_zero] at h ⊢
              simp [paintRow, h]
          | succ n =>
              simp only [List.getD_cons_succ] at h ⊢
              exact ih bs n h

/-- A nonzero pixel is never repainted. -/
lemma paintMasks_keep (id : Nat) (fill : List (List Bool)) (m : Raster) (y x : Nat)
    (h : rasterGet m y x ≠ 0) : rasterGet (paintMasks id fill m) y x = rasterGet m y x := by
  induction m generalizing fill y with
  | nil => simp [rasterGet, List.getD] at h
  | cons row rows ih =>
      cases fill with
      | nil => rfl
      | cons f fs =>
          cases y with
          | zero =>
              simp only [rasterGet, List.getD_cons_zero] at h ⊢
              exact paintRow_keep id f row x h
          | succ n =>
              simp only [rasterGet, List.getD_cons_succ] at h ⊢
              exact ih fs n h

/-- C2: painting any polygon (whatever binary fill the rasterizer produces for
it) leaves every pixel that was already labeled nonzero unchanged: the new
instance is written only to background pixels. -/
theorem C2_paint_preserves_nonzero (s : AppState) (pts : List (Int × Int))
    (fill : List (List Bool)) (y x : Nat) (_h3 : 3 ≤ pts.length)
    (h : rasterGet s.masks y x ≠ 0) :
    rasterGet (createMaskFromPolygon pts fill s).masks y x = rasterGet s.masks y x := by
  unfold createMaskFromPolygon
  split
  · rfl
  · split
    · exact paintMasks_keep s.next_mask_id fill s.masks y x h
    · rfl

/-- Witness for C2 at a concrete raster, polygon and fill. -/
theorem C2_paint_preserves_nonzero_witness :
    3 ≤ ([((0 : Int), (0 : Int)), (1, 0), (0, 1)] : List (Int × Int)).length ∧
    rasterGet [[5, 0]] 0 0 ≠ 0 ∧
    rasterGet (createMaskFromPolygon [((0 : Int), (0 : Int)), (1, 0), (0, 1)]
        [[true, true]] ⟨[[5, 0]], 6, []⟩).masks 0 0 = rasterGet [[5, 0]] 0 0 :=
  ⟨by decide, by decide,
   C2_paint_preserves_nonzero ⟨[[5, 0]], 6, []⟩ [((0 : Int), (0 : Int)), (1, 0), (0, 1)]
     [[true, true]] 0 0 (by decide) (by decide)⟩

/-- Pointwise description of eraseId on one row. -/
lemma eraseRow_get (id : Nat) (row : List Nat) (i : Nat) :
    ((row.map (fun v => if v = id then 0 else v)).getD i 0)
      = if row.getD i 0 = id then 0 else row.getD i 0 := by
  induction row generalizing i with
  | nil => simp [List.getD]
  | cons v vs ih =>
      cases i with
      | zero => simp [List.getD_cons_zero]
      | succ n => simpa only [List.map_cons, List.getD_cons_succ] using ih n

/-- Pointwise description of eraseId: pixels carrying the ID become 0, every
other pixel keeps its value. -/
lemma eraseId_get (id : Nat) (r : Raster) (j i : Nat) :
    rasterGet (eraseId id r) j i
      = if rasterGet r j i = id then 0 else rasterGet r j i := by
  induction r generalizing j with
  | nil => simp [rasterGet, eraseId, List.getD]
  | cons row rows ih =>
      cases j with
      | zero =>
          simp only [rasterGet, eraseId, List.map_cons, List.getD_cons_zero]
          exact eraseRow_get id row i
      | succ n =>
          simp only [rasterGet, eraseId, List.map_cons, List.getD_cons_succ]
          exact ih n

/-- C6: at an in-bounds pixel, if the pixel holds a nonzero ID then
_delete_mask_at reports that ID and zeroes exactly the pixels carrying it
while every other pixel keeps its value; if the pixel holds 0 it reports
nothing and performs no mutation at all. -/
theorem C6_erase_exact (tracer : Raster → Raster) (hsv : Nat → Nat × Nat × Nat)
    (mp ip : String) (x y : Int) (s : AppState) (disk : Disk)
    (hx0 : 0 ≤ x) (hx1 : x < ((s.masks.headD []).length : Int))
    (hy0 : 0 ≤ y) (hy1 : y < (s.masks.length : Int)) :
    (0 < rasterGet s.masks y.toNat x.toNat →
      (deleteMaskAt tracer hsv mp ip x y s disk).2.2 = some (rasterGet s.masks y.toNat x.toNat)
      ∧ ∀ j i, rasterGet (deleteMaskAt tracer hsv mp ip x y s disk).1.masks j i
          = if rasterGet s.masks j i = rasterGet s.masks y.toNat x.toNat then 0
            else rasterGet s.masks j i)
    ∧ (rasterGet s.masks y.toNat x.toNat = 0 →
        deleteMaskAt tracer hsv mp ip x y s disk = (s, disk, none)) := by
  unfold deleteMaskAt
  rw [if_pos ⟨hx0, hx1, hy0, hy1⟩]
  constructor
  · intro hid
    rw [if_pos hid]
    exact ⟨rfl, fun j i => eraseId_get (rasterGet s.masks y.toNat x.toNat) s.masks j i⟩
  · intro hid
    rw [if_neg (by omega)]

/-- Witness for C6 at a concrete raster and pixel. -/
theorem C6_erase_exact_witness :
    0 < rasterGet [[1, 2], [2, 0]] 0 1 ∧
    (deleteMaskAt (fun _ => []) (fun _ => (0, 0, 0)) "m" "i" 1 0
        ⟨[[1, 2], [2, 0]], 3, []⟩ []).2.2 = some (rasterGet [[1, 2], [2, 0]] 0 1) ∧
    rasterGet (deleteMaskAt (fun _ => []) (fun _ => (0, 0, 0)) "m" "i" 1 0
        ⟨[[1, 2], [2, 0]], 3, []⟩ []).1.masks 1 0 = 0 := by
  have h := (C6_erase_exact (fun _ => []) (fun _ => (0, 0, 0)) "m" "i" 1 0
      ⟨[[1, 2], [2, 0]], 3, []⟩ [] (by decide) (by decide) (by decide) (by decide)).1 (by decide)
  refine ⟨by decide, h.1, ?_⟩
  rw [h.2 1 0]
  decide

/-- C10: out-of-bounds coordinates make _delete_mask_at a total no-op: the
raster, the next-ID counter, the undo stack and the disk are all unchanged and
no deletion is reported (the guard precedes every raster access). -/
theorem C10_oob_noop (tracer : Raster → Raster) (hsv : Nat → Nat × Nat × Nat)
    (mp ip : String) (x y : Int) (s : AppState) (disk : Disk)
    (h : x < 0 ∨ ((s.masks.headD []).length : Int) ≤ x
        ∨ y < 0 ∨ (s.masks.length : Int) ≤ y) :
    deleteMaskAt tracer hsv mp ip x y s disk = (s, disk, none) := by
  unfold deleteMaskAt
  rw [if_neg (by omega)]

/-- Witness for C10 at concrete out-of-bounds coordinates. -/
theorem C10_oob_noop_witness :
    deleteMaskAt (fun _ => []) (fun _ => (0, 0, 0)) "m" "i" (-1) 0
      ⟨[[1]], 2, []⟩ [] = (⟨[[1]], 2, []⟩, [], none) :=
  C10_oob_noop (fun _ => []) (fun _ => (0, 0, 0)) "m" "i" (-1) 0
    ⟨[[1]], 2, []⟩ [] (by decide)

/-- C1: evaluated at a concrete paint on an empty 1-pixel raster, the source
pushes the undo snapshot only after writing the new instance, so the snapshot
is the post-paint raster and undo immediately after the paint leaves the paint
in place instead of restoring the pre-mutation content. -/
theorem C1_paint_snapshot_after_mutation :
    (createMaskFromPolygon [((0 : Int), (0 : Int)), (2, 0), (0, 2)] [[true]]
        ⟨[[0]], 1, []⟩).masks = [[1]]
    ∧ (createMaskFromPolygon [((0 : Int), (0 : Int)), (2, 0), (0, 2)] [[true]]
        ⟨[[0]], 1, []⟩).undo_stack = [[[1]]]
    ∧ (undoOp (fun _ => []) (fun _ => (0, 0, 0)) "m" "i"
        (createMaskFromPolygon [((0 : Int), (0 : Int)), (2, 0), (0, 2)] [[true]]
          ⟨[[0]], 1, []⟩) []).1.masks = [[1]]
    ∧ ([[1]] : Raster) ≠ [[0]] := by
  decide

/-- C3: evaluated at the 1-by-1 raster whose only pixel is labeled 1 (a raster
with no background pixel, all IDs representable), save_masks counts
len(np.unique) - 1 = 0 instances, deletes the container instead of writing it,
and the subsequent load yields the all-background raster, so load after save
does not reproduce the raster's label data. -/
theorem C3_roundtrip_fails :
    lookupFile (saveMasks (fun _ => []) (fun _ => (0, 0, 0)) "img_seg.npy" "img.tif"
        [[1]] []) "img_seg.npy" = none
    ∧ (loadMasks 1 1 2 (lookupFile (saveMasks (fun _ => []) (fun _ => (0, 0, 0))
        "img_seg.npy" "img.tif" [[1]] []) "img_seg.npy")).1 = [[0]]
    ∧ ([[0]] : Raster) ≠ [[1]] := by
  decide

/-- C7: evaluated at a session with a nonempty undo stack, dropping a new TIFF
file switches the image but leaves the undo stack exactly as it was, while the
file-dialog path clears it; so the drag-and-drop switching path does not clear
the ledger. -/
theorem C7_drop_keeps_undo_stack :
    (dropEvent (fun _ => []) (fun _ => (0, 0, 0)) ⟨[[1]], 2, [[[0]]], "a.tif", []⟩
        "b.tif" 1 1 true).undo_stack = [[[0]]]
    ∧ (openImageDialog (fun _ => []) (fun _ => (0, 0, 0)) ⟨[[1]], 2, [[[0]]], "a.tif", []⟩
        "b.tif" 1 1).undo_stack = []
    ∧ ([[[0]]] : List Raster) ≠ [] := by
  decide

/-- An empty-after-subtraction polygon leaves _create_mask_from_polygon's
state untouched. -/
lemma createMask_noop (pts : List (Int × Int)) (fill : List (List Bool)) (s : AppState)
    (hemp : survivors fill s.masks = 0) : createMaskFromPolygon pts fill s = s := by
  unfold createMaskFromPolygon
  split
  · rfl
  · rw [if_neg (by omega)]

/-- C5 counterexample: a 3-point polygon whose fill lies entirely on an
existing instance produces zero surviving pixels, yet the polygon-commit
handler still invokes save_masks, so the claim's conjunct that no save is
triggered is false on the code. -/
theorem C5_counterexample :
    survivors [[true]] ([[7]] : Raster) = 0
    ∧ (finalizePolygon (fun _ => []) (fun _ => (0, 0, 0)) "m" "i"
        [((0 : Int), (0 : Int)), (1, 0), (0, 1)] [[true]] ⟨[[7]], 8, []⟩ []).2.2 = true := by
  decide

/-- C5 amended: when no pixel of the fill survives the overlap subtraction the
raster is byte-for-byte unchanged, the next-ID counter is not incremented and
no undo entry is pushed, but the caller still invokes save_masks (on the
unchanged raster). -/
theorem C5_empty_paint_amended (tracer : Raster → Raster) (hsv : Nat → Nat × Nat × Nat)
    (mp ip : String) (pts : List (Int × Int)) (fill : List (List Bool))
    (s : AppState) (disk : Disk) (h3 : 3 ≤ pts.length)
    (hemp : survivors fill s.masks = 0) :
    (finalizePolygon tracer hsv mp ip pts fill s disk).1 = s
    ∧ (finalizePolygon tracer hsv mp ip pts fill s disk).2.2 = true
    ∧ (finalizePolygon tracer hsv mp ip pts fill s disk).2.1
        = saveMasks tracer hsv mp ip s.masks disk := by
  unfold finalizePolygon
  rw [if_pos h3, createMask_noop pts fill s hemp]
  exact ⟨rfl, rfl, rfl⟩

/-- Witness for the amended C5 at a concrete fully-overlapped paint. -/
theorem C5_empty_paint_amended_witness :
    (finalizePolygon (fun _ => []) (fun _ => (0, 0, 0)) "m" "i"
        [((0 : Int), (0 : Int)), (1, 0), (0, 1)] [[true]] ⟨[[7]], 8, []⟩ []).1
      = ⟨[[7]], 8, []⟩
    ∧ (finalizePolygon (fun _ => []) (fun _ => (0, 0, 0)) "m" "i"
        [((0 : Int), (0 : Int)), (1, 0), (0, 1)] [[true]] ⟨[[7]], 8, []⟩ []).2.2 = true :=
  ⟨(C5_empty_paint_amended (fun _ => []) (fun _ => (0, 0, 0)) "m" "i"
      [((0 : Int), (0 : Int)), (1, 0), (0, 1)] [[true]] ⟨[[7]], 8, []⟩ []
      (by decide) (by decide)).1,
   (C5_empty_paint_amended (fun _ => []) (fun _ => (0, 0, 0)) "m" "i"
      [((0 : Int), (0 : Int)), (1, 0), (0, 1)] [[true]] ⟨[[7]], 8, []⟩ []
      (by decide) (by decide)).2.1⟩

/-- An all-background raster has numMasks 0 (np.unique yields at most the
single value 0). -/
lemma allZero_numMasks (masks : Raster) (h : ∀ v ∈ rasterVals masks, v = 0) :
    numMasks masks = 0 := by
  have hsub : ∀ v ∈ (rasterVals masks).dedup, v = 0 :=
    fun v hv => h v (List.mem_dedup.mp hv)
  have hnd : (rasterVals masks).dedup.Nodup := List.nodup_dedup _
  unfold numMasks distinctVals
  rcases hdd : (rasterVals masks).dedup with _ | ⟨a, _ | ⟨b, t⟩⟩
  · rfl
  · rfl
  · exfalso
    rw [hdd] at hsub hnd
    have ha := hsub a (by simp)
    have hb := hsub b (by simp)
    rw [List.nodup_cons] at hnd
    exact hnd.1 (by simp [ha, hb])

/-- No file remains at the removed path. -/
lemma lookupFile_removeFile (d : Disk) (p : String) :
    lookupFile (removeFile d p) p = none := by
  induction d with
  | nil => rfl
  | cons e rest ih =>
      unfold removeFile at ih ⊢
      by_cases h : e.1 = p
      · simp [List.filter_cons, h, ih]
      · simp [List.filter_cons, h, lookupFile, ih]

/-- Removing an absent path leaves the disk unchanged. -/
lemma removeFile_of_lookup_none (d : Disk) (p : String) (h : lookupFile d p = none) :
    removeFile d p = d := by
  induction d with
  | nil => rfl
  | cons e rest ih =>
      unfold lookupFile at h
      by_cases he : e.1 = p
      · rw [if_pos he] at h
        cases h
      · rw [if_neg he] at h
        unfold removeFile at ih ⊢
        simp [List.filter_cons, he, ih h]

/-- C8: saving a raster with zero nonzero IDs performs exactly the deletion of
any pre-existing container file (writing nothing), afterwards no container
file exists at the mask path, and when none existed the save leaves the disk
untouched. -/
theorem C8_empty_save_deletes (tracer : Raster → Raster) (hsv : Nat → Nat × Nat × Nat)
    (mp ip : String) (masks : Raster) (disk : Disk)
    (h : ∀ v ∈ rasterVals masks, v = 0) :
    saveMasks tracer hsv mp ip masks disk = removeFile disk mp
    ∧ lookupFile (saveMasks tracer hsv mp ip masks disk) mp = none
    ∧ (lookupFile disk mp = none → saveMasks tracer hsv mp ip masks disk = disk) := by
  have hz : numMasks masks = 0 := allZero_numMasks masks h
  unfold saveMasks
  rw [if_neg (by omega)]
  exact ⟨rfl, lookupFile_removeFile disk mp,
    fun hnone => removeFile_of_lookup_none disk mp hnone⟩

/-- Witness for C8 at a concrete all-background raster over a disk that holds
a stale container. -/
theorem C8_empty_save_deletes_witness :
    saveMasks (fun _ => []) (fun _ => (0, 0, 0)) "x_seg.npy" "x.tif" [[0, 0]]
        [("x_seg.npy", NpyData.simple [[1]])]
      = removeFile [("x_seg.npy", NpyData.simple [[1]])] "x_seg.npy"
    ∧ lookupFile (saveMasks (fun _ => []) (fun _ => (0, 0, 0)) "x_seg.npy" "x.tif" [[0, 0]]
        [("x_seg.npy", NpyData.simple [[1]])]) "x_seg.npy" = none :=
  ⟨(C8_empty_save_deletes (fun _ => []) (fun _ => (0, 0, 0)) "x_seg.npy" "x.tif" [[0, 0]]
      [("x_seg.npy", NpyData.simple [[1]])] (by decide)).1,
   (C8_empty_save_deletes (fun _ => []) (fun _ => (0, 0, 0)) "x_seg.npy" "x.tif" [[0, 0]]
      [("x_seg.npy", NpyData.simple [[1]])] (by decide)).2.1⟩

/-- Folding max over an all-zero row returns the accumulator. -/
lemma foldr_max_replicate_zero (W acc : Nat) :
    (List.replicate W 0).foldr Nat.max acc = acc := by
  induction W with
  | zero => rfl
  | succ n ih => simp [List.replicate_succ, List.foldr_cons, ih]

/-- The all-zero raster a fresh load starts from has maximum 0. -/
lemma maxVal_replicate_zero (H W : Nat) :
    maxVal (List.replicate H (List.replicate W 0)) = 0 := by
  induction H with
  | zero => rfl
  | succ n ih =>
      unfold maxVal rasterVals at ih ⊢
      simp only [List.replicate_succ, List.foldr_cons]
      rw [List.foldr_append, ih]
      exact foldr_max_replicate_zero W 0

/-- C4 counterexample: loading with no container file present (prior
next_mask_id 6, e.g. after annotating a previous image) leaves next_mask_id at
6, not 1, although the loaded raster has no nonzero IDs. -/
theorem C4_counterexample :
    (loadMasks 1 1 6 none).2 = 6 ∧ (loadMasks 1 1 6 none).2 ≠ 1 := by
  decide

/-- C4 amended: after any load, next_mask_id equals max(IDs) + 1 when the
resulting raster has a nonzero ID, and otherwise keeps its previous value
(initially 1) instead of being reset to 1; whenever the previous value was at
least 1, next_mask_id still exceeds every ID of the loaded raster, so painted
IDs never collide with loaded ones. -/
theorem C4_next_id_amended (H W prevNext : Nat) (entry : Option NpyData) :
    ((loadMasks H W prevNext entry).2
        = if 0 < maxVal (loadMasks H W prevNext entry).1
          then maxVal (loadMasks H W prevNext entry).1 + 1 else prevNext)
    ∧ (1 ≤ prevNext →
        maxVal (loadMasks H W prevNext entry).1 < (loadMasks H W prevNext entry).2) := by
  have hbase := maxVal_replicate_zero H W
  cases entry with
  | none =>
      constructor
      · simp [loadMasks, hbase]
      · intro h
        simp only [loadMasks, hbase]
        omega
  | some d =>
      cases d with
      | other =>
          constructor
          · simp [loadMasks, hbase]
          · intro h
            simp only [loadMasks, hbase]
            omega
      | simple a =>
          constructor
          · simp only [loadMasks]
            split
            · rfl
            · simp [hbase]
          · intro h
            simp only [loadMasks]
            split
            · show maxVal a < if 0 < maxVal a then maxVal a + 1 else prevNext
              split <;> omega
            · show maxVal (List.replicate H (List.replicate W 0)) < prevNext
              omega
      | cdict dd =>
          constructor
          · simp only [loadMasks]
            split
            · rfl
            · simp [hbase]
          · intro h
            simp only [loadMasks]
            split
            · show maxVal dd.masks < if 0 < maxVal dd.masks then maxVal dd.masks + 1 else prevNext
              split <;> omega
            · show maxVal (List.replicate H (List.replicate W 0)) < prevNext
              omega

/-- Witness for the amended C4 at a concrete loaded container. -/
theorem C4_next_id_amended_witness :
    1 ≤ 3 ∧ maxVal (loadMasks 1 1 3 (some (NpyData.simple [[2]]))).1
      < (loadMasks 1 1 3 (some (NpyData.simple [[2]]))).2 :=
  ⟨by decide, (C4_next_id_amended 1 1 3 (some (NpyData.simple [[2]]))).2 (by decide)⟩

/-- On a duplicate-free list containing 0, the length exceeds the number of
nonzero entries by exactly one. -/
lemma length_filter_ne_zero (l : List Nat) (hn : l.Nodup) (h0 : 0 ∈ l) :
    l.length = (l.filter (fun v => v != 0)).length + 1 := by
  induction l with
  | nil => cases h0
  | cons v vs ih =>
      rw [List.nodup_cons] at hn
      by_cases hv : v = 0
      · subst hv
        have hnot : ∀ w ∈ vs, (w != 0) = true := by
          intro w hw
          have hne : w ≠ 0 := fun he => hn.1 (he ▸ hw)
          simpa using hne
        rw [List.filter_cons]
        simp [List.filter_eq_self.mpr hnot]
      · have h0vs : 0 ∈ vs := by
          rcases List.mem_cons.mp h0 with h | h
          · exact absurd h.symm hv
          · exact h
        have hv2 : (v != 0) = true := by simpa using hv
        rw [List.filter_cons]
        simp only [hv2, if_true, List.length_cons]
        rw [ih hn.2 h0vs]

/-- When at least one background pixel is present, the source's count
len(np.unique) - 1 equals the number of distinct nonzero IDs. -/
lemma numMasks_eq_spec (a : Raster) (h : 0 ∈ rasterVals a) :
    numMasks a = specNonzeroIdCount a := by
  have h0 : 0 ∈ (rasterVals a).dedup := List.mem_dedup.mpr h
  have hn : (rasterVals a).dedup.Nodup := List.nodup_dedup _
  have hlen := length_filter_ne_zero ((rasterVals a).dedup) hn h0
  unfold numMasks specNonzeroIdCount distinctVals
  omega

/-- C9 counterexample: a simple-array container whose single pixel carries ID
1 (no background pixel) with a sibling image present is converted, but the
reported count is len(np.unique) - 1 = 0 while the number of distinct nonzero
instance IDs is 1. -/
theorem C9_counterexample :
    (convert_file (fun _ => []) (fun _ => (0, 0, 0)) (fun _ => true) "img"
        (NpyData.simple [[1]]) false false).1 = ConvStatus.converted 0
    ∧ specNonzeroIdCount [[1]] = 1 ∧ (0 : Nat) ≠ 1 := by
  decide

/-- C9 amended: a partial-dictionary or simple-array container with no sibling
source image reports no_tif and performs no write and no backup even without
dry-run; a simple-array container with a sibling image is converted to the
complete CellPose shape and reports len(np.unique) - 1, which equals the count
of distinct nonzero instance IDs whenever the array contains at least one
background pixel. -/
theorem C9_migrate_amended (tracer : Raster → Raster) (hsv : Nat → Nat × Nat × Nat)
    (ex : String → Bool) (base : String) (data : NpyData) (backup : Bool) :
    (get_corresponding_tif ex base = none → is_cellpose_format data = false →
      data ≠ NpyData.other →
      convert_file tracer hsv ex base data false backup = (ConvStatus.no_tif, none, false))
    ∧ (∀ a tp, data = NpyData.simple a → get_corresponding_tif ex base = some tp →
        (convert_file tracer hsv ex base data false backup).1
            = ConvStatus.converted (numMasks a)
        ∧ (convert_file tracer hsv ex base data false backup).2.1
            = some (convert_to_cellpose_format tracer hsv a tp)
        ∧ is_cellpose_format (convert_to_cellpose_format tracer hsv a tp) = true
        ∧ (0 ∈ rasterVals a → numMasks a = specNonzeroIdCount a)) := by
  constructor
  · intro htif hfmt hother
    cases data with
    | simple a => simp [convert_file, hfmt, htif]
    | cdict d => simp [convert_file, hfmt, htif]
    | other => exact absurd rfl hother
  · intro a tp hdata htif
    subst hdata
    refine ⟨?_, ?_, rfl, fun hz => numMasks_eq_spec a hz⟩
    · simp [convert_file, is_cellpose_format, htif]
    · simp [convert_file, is_cellpose_format, htif]

/-- Witness for the amended C9 at a concrete simple-array container with a
background pixel and an existing sibling image. -/
theorem C9_migrate_amended_witness :
    (convert_file (fun _ => []) (fun _ => (0, 0, 0)) (fun _ => true) "img"
        (NpyData.simple [[0], [1]]) false false).1
      = ConvStatus.converted (numMasks [[0], [1]])
    ∧ numMasks [[0], [1]] = specNonzeroIdCount [[0], [1]] := by
  have h := (C9_migrate_amended (fun _ => []) (fun _ => (0, 0, 0)) (fun _ => true) "img"
      (NpyData.simple [[0], [1]]) false).2 [[0], [1]] "img.tif" rfl rfl
  exact ⟨h.1, h.2.2.2 (by decide)⟩

end CellSeg
